import Mathlib

/-!
Verification of the eBird-Navigator repository (src/agent.py, src/setup.py)
against its natural-language specification.

The Python code is shallowly embedded: module-level configuration becomes a
function of an abstract environment, the query service's `run_query` becomes a
pure function over an oracle describing the behaviour of the external agent
framework (session creation, streamed events, raised exceptions), and the
setup script becomes a state-passing function tracking the working directory
and the subprocess calls it issues.
-/

namespace EBirdNavigator

/-! ## Streamed response events (google.genai shapes used by run_query)

`run_query` inspects `event.response.output.final.text` guarded by Python
truthiness at every level: a missing attribute (None) is falsy, and for the
text field the empty string is falsy as well.  Optional fields are `Option`;
the empty-string case of the text field is handled where truthiness is
evaluated. -/

structure FinalPart where
  text : Option String
deriving Repr, DecidableEq

structure ResponseOutput where
  final : Option FinalPart
deriving Repr, DecidableEq

structure EventResponse where
  output : Option ResponseOutput
deriving Repr, DecidableEq

structure Event where
  response : Option EventResponse
deriving Repr, DecidableEq

/-- The text fragment an event contributes to the accumulated response:
`some t` exactly when `event.response and event.response.output and
event.response.output.final and event.response.output.final.text` is truthy
in Python (all fields present and the text non-empty), in which case `t` is
that text. -/
def Event.finalText (e : Event) : Option String :=
  match e.response with
  | none => none
  | some r =>
    match r.output with
    | none => none
    | some o =>
      match o.final with
      | none => none
      | some f =>
        match f.text with
        | none => none
        | some t => if t = "" then none else some t

/-- Python's `str.strip()` with no argument: remove leading and trailing
whitespace characters. -/
def pyStrip (s : String) : String :=
  String.mk
    (((s.data.dropWhile Char.isWhitespace).reverse.dropWhile
        Char.isWhitespace).reverse)

/-- The accumulation loop of `run_query`: starting from `response = ""`,
append each qualifying event's final text in stream order. -/
def accumulateResponse (events : List Event) : String :=
  events.foldl
    (fun response e =>
      match e.finalText with
      | some t => response ++ t
      | none => response) ""

/-! ## Session service

Model of the framework's `InMemorySessionService` used by the service:
its contract is that every `create_session` call returns a brand-new session.
We realise freshness with a counter; `sessionIds` records every id handed
out, so reuse across calls is expressible. -/

structure SessionService where
  nextId : Nat
  sessionIds : List Nat
deriving Repr, DecidableEq

def SessionService.create_session (s : SessionService) : Nat × SessionService :=
  (s.nextId, { nextId := s.nextId + 1, sessionIds := s.sessionIds ++ [s.nextId] })

/-- Well-formedness: every session id handed out so far is below the counter. -/
def SessionService.wf (s : SessionService) : Prop :=
  ∀ i ∈ s.sessionIds, i < s.nextId

/-! ## The behaviour of the external framework during one query

`Runner.run_async` yields a stream of events and may raise at any point;
`create_session` may also raise.  `RunnerStream` is the sequence of events
delivered before the stream either ends normally (`failure = none`) or
raises an exception with the given message (`failure = some msg`). -/

structure RunnerStream where
  events : List Event
  failure : Option String
deriving Repr, DecidableEq

/-- Oracle for the external framework: whether creating the session numbered
`n` raises (and with which message), and the event stream produced by running
a query on a given session id. -/
structure Oracle where
  sessionFailure : Nat → Option String
  stream : Nat → String → RunnerStream

/-- Result of one `run_query` call: the returned string, the id of the
session created during the call (none if session creation raised), and the
session service state afterwards. -/
structure QueryRun where
  result : String
  sessionId : Option Nat
  service : SessionService

/-- `BirdingAgentService.run_query`: create a fresh session, submit the query
as a single user message, accumulate the final-output text of the streamed
events, and return the stripped accumulation; any exception raised along the
way is caught and converted to `"Error: " ++ message`. -/
def run_query (oracle : Oracle) (svc : SessionService) (query : String) : QueryRun :=
  match oracle.sessionFailure svc.nextId with
  | some msg => { result := "Error: " ++ msg, sessionId := none, service := svc }
  | none =>
    let created := svc.create_session
    let sid := created.1
    let svc' := created.2
    let st := oracle.stream sid query
    match st.failure with
    | some msg => { result := "Error: " ++ msg, sessionId := some sid, service := svc' }
    | none =>
      { result := pyStrip (accumulateResponse st.events)
        sessionId := some sid
        service := svc' }

/-! ## Module-level configuration of agent.py

`agent.py` at import time computes `PROJECT_ROOT`, `EBIRD_FOLDER` and
`EBIRD_API_KEY`, raises `FileNotFoundError` when the server folder is
missing, and only then constructs the MCP toolset and the three agents.
The environment the module sees is abstracted into `ModuleEnv`. -/

structure StdioServerParameters where
  command : String
  args : List String
  cwd : String
deriving Repr, DecidableEq

structure StdioConnectionParams where
  server_params : StdioServerParameters
deriving Repr, DecidableEq

structure McpToolset where
  connection_params : StdioConnectionParams
deriving Repr, DecidableEq

/-- A tool handed to an `LlmAgent`: the built-in Google search tool, an MCP
toolset, or an `AgentTool` wrapping a sub-agent (referenced by its name). -/
inductive Tool where
  | googleSearch
  | mcpToolset (toolset : McpToolset)
  | agentTool (agentName : String)
deriving Repr, DecidableEq

structure LlmAgent where
  model : String
  name : String
  description : String
  instruction : String
  tools : List Tool
deriving Repr, DecidableEq

/-- What `agent.py` reads from the outside world at import time: the directory
holding the file (`Path(__file__).parent.absolute()`), whether
`PROJECT_ROOT / "ebird-mcp-server"` exists on disk, and the value of the
`EBIRD_API_KEY` environment variable (none when unset). -/
structure ModuleEnv where
  projectRoot : String
  ebirdFolderExists : Bool
  ebirdApiKeyVar : Option String
deriving Repr, DecidableEq

/-- `pathlib` path joining, `p / q`, rendered as a string. -/
def pathJoin (p q : String) : String := p ++ "/" ++ q

/-- `EBIRD_FOLDER = PROJECT_ROOT / "ebird-mcp-server"`. -/
def EBIRD_FOLDER (env : ModuleEnv) : String :=
  pathJoin env.projectRoot "ebird-mcp-server"

/-- `EBIRD_API_KEY = os.getenv("EBIRD_API_KEY", "YOUR_EBIRD_API_KEY")`. -/
def EBIRD_API_KEY (env : ModuleEnv) : String :=
  env.ebirdApiKeyVar.getD "YOUR_EBIRD_API_KEY"

/-- The exception raised at import time when the server folder is missing. -/
inductive StartupError where
  | fileNotFound (msg : String)
deriving Repr, DecidableEq

/-- The process-wide state `agent.py` leaves behind after a successful
import: the toolset and the three agents, never mutated afterwards. -/
structure ModuleState where
  ebird_toolset : McpToolset
  city_species_locator_agent : LlmAgent
  ebird_agent : LlmAgent
  root_agent : LlmAgent
deriving Repr, DecidableEq

/-- Importing `agent.py`: compute the paths and the key, check that the
server folder exists (raising `FileNotFoundError` otherwise), then construct
the MCP toolset and the three agents in source order. -/
def loadModule (env : ModuleEnv) : Except StartupError ModuleState :=
  if env.ebirdFolderExists then
    let toolset : McpToolset :=
      { connection_params :=
        { server_params :=
          { command := "node"
            args := [pathJoin (EBIRD_FOLDER env) "index.js", "--api-key",
                     EBIRD_API_KEY env]
            cwd := EBIRD_FOLDER env } } }
    let citySpecies : LlmAgent :=
      { model := "gemini-2.5-flash-lite"
        name := "city_species_agent"
        description := "Location and species lookup using Google Search."
        instruction := "You specialize in finding latitude/longitude for cities,states,countries, locations, or landmarks. Use Google Search to find coordinates for ANY location mentioned. If a state is mentioned then find the capital city of that state and provide the coordinates of the capital city.If a country is mentioned then find the capital city of that country and provide the coordinates of the capital city.Extract the main city/place from the query if multiple locations are mentioned.You also specialize in finding information about any species, the scientific or common name, at any location,  that is asked. Use Google Search to find information about any species, broader category that is asked.Extract the main species and their scientific name or common name from the query if multiple species are mentioned and then pass this information to the eBird Taxonomy tool."
        tools := [Tool.googleSearch] }
    let ebirdAgent : LlmAgent :=
      { model := "gemini-2.5-flash-lite"
        name := "ebird_agent"
        description := "eBird specialist using MCP tools for hotspots and observations."
        instruction := "You are an eBird specialist. Use the eBird MCP tools to answer birding questions. If given latitude/longitude, use tools like list_hotspots or search_observations. If given a city/place, FIRST ask the city_species_locator_agent for coordinates, THEN use eBird tools. If given a general category or species/bird/common name, ask the city_species_locator_agent for common name or scientific name, THEN use eBird tools.Provide concise, useful birding insights (hotspots, recent sightings, species lists, taxonomy).If you do not find any answers from the ebird tool, find the best answer by using the city_species_locator_agent to get information about the species and give some information in 4-5 lines about the species that is being asked"
        tools := [Tool.mcpToolset toolset] }
    let rootAgent : LlmAgent :=
      { model := "gemini-2.5-flash-lite"
        name := "root_agent"
        description := "Professional birding assistant with auto-orchestration."
        instruction := "You are a kind, helpful and professional birding assistant. For birding/hotspot questions:\n1. If the user mentions a SPECIFIC CITY/PLACE, use the city_species_locator_agent to get lat/long, then pass those coordinates to ebird_agent.\n2. If the user mentions a SPECIFIC SPECIES/BIRD, use the city_species_locator_agent to get the common or scientific name, then pass that to ebird_agent.\n3. If the user asks about birds' broad general category or species/bird/common name, ask the city_species_locator_agent for common name or scientific name, then use eBird tools.\n4. If the user already provides lat/long OR asks general birding questions, ask city_species_locator_agent first and then consult with ebird_agent with added context.\n5. For non-birding questions, answer directly.\n\nAlways explain briefly what you did and why.6. Always provide answer in the form of a list of 15 most relevant bird species that can be found at the location or 10-15 hotspots asked based on the data from ebird_agent."
        tools := [Tool.agentTool "city_species_agent", Tool.agentTool "ebird_agent"] }
    Except.ok
      { ebird_toolset := toolset
        city_species_locator_agent := citySpecies
        ebird_agent := ebirdAgent
        root_agent := rootAgent }
  else
    Except.error (StartupError.fileNotFound
      ("eBird MCP server folder not found: " ++ EBIRD_FOLDER env))

/-! ## The demonstration entry point of agent.py

`main()` constructs one `BirdingAgentService` (a fresh session service) and
runs three literal queries through it in order, printing for each the
response truncated to 600 characters. -/

/-- The fixed demonstration queries of `main()`. -/
def demoQueries : List String :=
  ["Birding hotspots near Boston", "Bald eagles Seattle", "Paris birds"]

/-- The print expression of `main()`:
`response[:600] + "..." if len(response) > 600 else response`. -/
def preview (response : String) : String :=
  if response.length > 600 then response.take 600 ++ "..." else response

/-- The service state a fresh `BirdingAgentService()` starts from: a new
`InMemorySessionService` with no sessions. -/
def freshService : SessionService :=
  { nextId := 0, sessionIds := [] }

/-- The demo loop of `main()`: for each query in order, call
`service.run_query` and print the previewed response.  Returns the list of
(query, printed preview) pairs together with the final service state. -/
def mainTrace (oracle : Oracle) : List (String × String) × SessionService :=
  demoQueries.foldl
    (fun acc q =>
      let r := run_query oracle acc.2 q
      (acc.1 ++ [(q, preview r.result)], r.service))
    ([], freshService)

/-! ## setup.py

`install_requirements` runs `pip install -r requirements.txt` via
`subprocess.check_call`, which raises `CalledProcessError` on a non-zero
exit status.  `setup_ebird_mcp` changes into the server directory, runs
`npm install`, and changes back only after it succeeds.  The script body
runs the two functions in order; an uncaught `CalledProcessError` makes the
interpreter exit with status 1.

The outside world is abstracted into the exit codes of the two subprocesses;
process state is the working directory (a stack of path components relative
to the starting directory, `os.chdir("..")` popping the last one) plus the
list of subprocess commands issued so far. -/

structure ProcState where
  cwd : List String
  trace : List (List String)
deriving Repr, DecidableEq

/-- `os.chdir`: push a component, or pop for `".."`. -/
def chdir (cwd : List String) (d : String) : List String :=
  if d = ".." then cwd.dropLast else cwd ++ [d]

/-- The `pip` command of `install_requirements` (`sys.executable` rendered
as `"python"`). -/
def pipCommand : List String :=
  ["python", "-m", "pip", "install", "-r", "requirements.txt"]

/-- The `npm` command of `setup_ebird_mcp`. -/
def npmCommand : List String :=
  ["npm", "install"]

/-- `subprocess.check_call`: record the command; return the raised
`CalledProcessError`'s exit status when the subprocess fails, `none` when it
succeeds. -/
def check_call (exitCode : Nat) (cmd : List String) (st : ProcState) :
    Option Nat × ProcState :=
  ((if exitCode = 0 then none else some exitCode),
   { st with trace := st.trace ++ [cmd] })

/-- `install_requirements()`. -/
def install_requirements (pipExit : Nat) (st : ProcState) :
    Option Nat × ProcState :=
  check_call pipExit pipCommand st

/-- `setup_ebird_mcp()`: chdir into the server folder, run `npm install`,
and chdir back only on success — when `check_call` raises, the exception
propagates with the directory still changed. -/
def setup_ebird_mcp (npmExit : Nat) (st : ProcState) :
    Option Nat × ProcState :=
  let st1 := { st with cwd := chdir st.cwd "ebird-mcp-server" }
  match check_call npmExit npmCommand st1 with
  | (some e, st2) => (some e, st2)
  | (none, st2) => (none, { st2 with cwd := chdir st2.cwd ".." })

/-- Outcome of running `python setup.py`: the interpreter's exit status and
the process state at exit. -/
structure SetupOutcome where
  exitCode : Nat
  finalState : ProcState
deriving Repr, DecidableEq

/-- The script body of setup.py: `install_requirements()` then
`setup_ebird_mcp()`; an uncaught `CalledProcessError` from either stops the
script and the interpreter exits with status 1. -/
def setupMain (pipExit npmExit : Nat) : SetupOutcome :=
  let st0 : ProcState := { cwd := [], trace := [] }
  match install_requirements pipExit st0 with
  | (some _, st1) => { exitCode := 1, finalState := st1 }
  | (none, st1) =>
    match setup_ebird_mcp npmExit st1 with
    | (some _, st2) => { exitCode := 1, finalState := st2 }
    | (none, st2) => { exitCode := 0, finalState := st2 }

/-! ## Helper lemmas -/

theorem foldl_string_append (a b : String) (t : List String) :
    t.foldl (fun r s => r ++ s) (a ++ b) = a ++ t.foldl (fun r s => r ++ s) b := by
  induction t generalizing b with
  | nil => rfl
  | cons c cs ih =>
    simp only [List.foldl_cons, String.append_assoc]
    exact ih (b ++ c)

theorem string_join_cons (a : String) (l : List String) :
    String.join (a :: l) = a ++ String.join l := by
  have h := foldl_string_append a "" l
  simp only [String.append_empty] at h
  simpa [String.join] using h

/-- The accumulation loop of `run_query`, started from an arbitrary
accumulator, appends exactly the join of the qualifying events' texts. -/
theorem accumulate_foldl (acc : String) (events : List Event) :
    events.foldl
      (fun response e =>
        match e.finalText with
        | some t => response ++ t
        | none => response) acc
    = acc ++ String.join (events.filterMap Event.finalText) := by
  induction events generalizing acc with
  | nil => simp [String.join]
  | cons e es ih =>
    cases h : e.finalText with
    | none => simp [List.foldl_cons, h, ih, List.filterMap_cons]
    | some t =>
      simp [List.foldl_cons, h, ih, List.filterMap_cons, string_join_cons,
        String.append_assoc]

theorem accumulateResponse_eq_join (events : List Event) :
    accumulateResponse events =
      String.join (events.filterMap Event.finalText) := by
  simpa using accumulate_foldl "" events

/-- With session creation succeeding, `run_query` creates exactly the session
numbered `svc.nextId` and advances the service by recording it, whether or
not the event stream later fails. -/
theorem run_query_service_step (oracle : Oracle) (svc : SessionService)
    (query : String) (h : oracle.sessionFailure svc.nextId = none) :
    (run_query oracle svc query).sessionId = some svc.nextId ∧
    (run_query oracle svc query).service =
      { nextId := svc.nextId + 1, sessionIds := svc.sessionIds ++ [svc.nextId] } := by
  cases hf : (oracle.stream svc.nextId query).failure <;>
    simp [run_query, h, hf, SessionService.create_session]

/-! ## Theorems for the claims -/

/-- C1: `run_query` never raises to its caller: every case returns a string,
and any exception raised during session creation or during event streaming
(message submission / event consumption) is converted into
`"Error: " ++ message` rather than propagated. -/
theorem run_query_error_boundary (oracle : Oracle) (svc : SessionService)
    (query : String) :
    (∀ msg, oracle.sessionFailure svc.nextId = some msg →
        (run_query oracle svc query).result = "Error: " ++ msg) ∧
    (∀ msg, oracle.sessionFailure svc.nextId = none →
        (oracle.stream svc.nextId query).failure = some msg →
        (run_query oracle svc query).result = "Error: " ++ msg) ∧
    (oracle.sessionFailure svc.nextId = none →
        (oracle.stream svc.nextId query).failure = none →
        (run_query oracle svc query).result =
          pyStrip (accumulateResponse (oracle.stream svc.nextId query).events)) := by
  refine ⟨fun msg h => by simp [run_query, h], fun msg h hf => ?_,
    fun h hf => ?_⟩ <;>
    simp [run_query, h, hf, SessionService.create_session]

/-- Witness for C1: a session-creation failure with message `"boom"` is
returned as the string `"Error: boom"`. -/
theorem run_query_error_boundary_witness :
    (run_query
      { sessionFailure := fun _ => some "boom"
        stream := fun _ _ => { events := [], failure := none } }
      freshService "any query").result = "Error: boom" :=
  (run_query_error_boundary
    { sessionFailure := fun _ => some "boom"
      stream := fun _ _ => { events := [], failure := none } }
    freshService "any query").1 "boom" rfl

/-- C2: when nothing raises, the result of `run_query` is the concatenation,
in event order, of exactly the final-output text fragments of the streamed
events (events lacking a response, output, final part, or truthy final text
contribute nothing), with leading and trailing whitespace stripped. -/
theorem run_query_success_concat (oracle : Oracle) (svc : SessionService)
    (query : String)
    (h : oracle.sessionFailure svc.nextId = none)
    (hf : (oracle.stream svc.nextId query).failure = none) :
    (run_query oracle svc query).result =
      pyStrip (String.join
        ((oracle.stream svc.nextId query).events.filterMap Event.finalText)) := by
  simp [run_query, h, hf, SessionService.create_session,
    accumulateResponse_eq_join]

/-- A streamed event whose final-output text is `t` (all levels present). -/
def textEvent (t : String) : Event :=
  Event.mk (some (EventResponse.mk (some (ResponseOutput.mk
    (some (FinalPart.mk (some t)))))))

/-- A demonstration stream: a bare event, a `"Hello "` fragment, an event
with no final part, and a `" world "` fragment. -/
def helloStream : RunnerStream :=
  { events :=
      [ Event.mk none,
        textEvent "Hello ",
        Event.mk (some (EventResponse.mk (some (ResponseOutput.mk none)))),
        textEvent " world " ]
    failure := none }

/-- An oracle on which nothing raises and every run yields `helloStream`. -/
def helloOracle : Oracle :=
  { sessionFailure := fun _ => none
    stream := fun _ _ => helloStream }

/-- Witness for C2: running on `helloOracle` yields `"Hello  world"` (the
fragments joined in order, then stripped). -/
theorem run_query_success_concat_witness :
    (run_query helloOracle freshService "q").result = "Hello  world" := by
  rw [run_query_success_concat helloOracle freshService "q" rfl rfl]
  decide

/-- C3: when the eBird server directory does not exist, importing the module
raises `FileNotFoundError` naming the missing folder, and no module state
(toolset, agents) is ever constructed — so no query can be attempted. -/
theorem startup_missing_folder_fatal (env : ModuleEnv)
    (h : env.ebirdFolderExists = false) :
    loadModule env =
      Except.error (StartupError.fileNotFound
        ("eBird MCP server folder not found: " ++ EBIRD_FOLDER env)) ∧
    ∀ st : ModuleState, loadModule env ≠ Except.ok st := by
  refine ⟨by simp [loadModule, h], fun st hst => ?_⟩
  simp [loadModule, h] at hst

/-- Witness for C3: with the folder absent at root `"/app"`, import fails
with the expected `FileNotFoundError`. -/
theorem startup_missing_folder_fatal_witness :
    loadModule
        { projectRoot := "/app", ebirdFolderExists := false,
          ebirdApiKeyVar := none } =
      Except.error (StartupError.fileNotFound
        "eBird MCP server folder not found: /app/ebird-mcp-server") := by
  have h := startup_missing_folder_fatal
    { projectRoot := "/app", ebirdFolderExists := false,
      ebirdApiKeyVar := none } rfl
  rw [h.1]
  rfl

/-- C4: every `run_query` call with successful session creation creates one
fresh session; across two sequential calls the created session identifiers
are distinct, and neither reuses an identifier already recorded in the
service, so no state carries over between the calls. -/
theorem run_query_fresh_sessions (oracle : Oracle) (svc : SessionService)
    (q1 q2 : String) (hwf : svc.wf)
    (h1 : oracle.sessionFailure svc.nextId = none)
    (h2 : oracle.sessionFailure
        (run_query oracle svc q1).service.nextId = none) :
    ∃ s1 s2,
      (run_query oracle svc q1).sessionId = some s1 ∧
      (run_query oracle (run_query oracle svc q1).service q2).sessionId =
        some s2 ∧
      s1 ≠ s2 ∧
      s1 ∉ svc.sessionIds ∧
      s2 ∉ (run_query oracle svc q1).service.sessionIds := by
  obtain ⟨hid1, hsvc1⟩ := run_query_service_step oracle svc q1 h1
  rw [hsvc1] at h2 ⊢
  obtain ⟨hid2, _⟩ := run_query_service_step oracle _ q2 h2
  refine ⟨svc.nextId, svc.nextId + 1, hid1, hid2, by omega, ?_, ?_⟩
  · intro hmem
    exact absurd (hwf _ hmem) (by omega)
  · intro hmem
    rcases List.mem_append.mp hmem with hmem | hmem
    · exact absurd (hwf _ hmem) (by omega)
    · simp at hmem

/-- Witness for C4: two runs on `helloOracle` from a fresh service use
sessions 0 and 1, which are distinct and unused before. -/
theorem run_query_fresh_sessions_witness :
    ∃ s1 s2,
      (run_query helloOracle freshService "a").sessionId = some s1 ∧
      (run_query helloOracle
        (run_query helloOracle freshService "a").service "b").sessionId =
        some s2 ∧
      s1 ≠ s2 ∧
      s1 ∉ freshService.sessionIds ∧
      s2 ∉ (run_query helloOracle freshService "a").service.sessionIds :=
  run_query_fresh_sessions helloOracle freshService "a" "b"
    (fun i hi => absurd hi (by simp [freshService])) rfl rfl

/-- C5: on every successful import, the MCP toolset's launch configuration
is exactly: command `"node"`, arguments `[<server folder>/index.js,
"--api-key", <key>]`, and working directory the server folder itself. -/
theorem toolset_launch_config (env : ModuleEnv) (st : ModuleState)
    (h : loadModule env = Except.ok st) :
    st.ebird_toolset.connection_params.server_params.command = "node" ∧
    st.ebird_toolset.connection_params.server_params.args =
      [pathJoin (EBIRD_FOLDER env) "index.js", "--api-key",
       EBIRD_API_KEY env] ∧
    st.ebird_toolset.connection_params.server_params.cwd = EBIRD_FOLDER env := by
  cases hE : env.ebirdFolderExists with
  | false => simp [loadModule, hE] at h
  | true =>
    simp only [loadModule, hE, if_true, Except.ok.injEq] at h
    subst h
    exact ⟨rfl, rfl, rfl⟩

/-- Witness for C5: importing at root `"/app"` with key `"KEY"` yields a
toolset launching `node /app/ebird-mcp-server/index.js --api-key KEY` in
`/app/ebird-mcp-server`. -/
theorem toolset_launch_config_witness :
    ∃ st : ModuleState,
      loadModule
          { projectRoot := "/app", ebirdFolderExists := true,
            ebirdApiKeyVar := some "KEY" } = Except.ok st ∧
      st.ebird_toolset.connection_params.server_params.command = "node" ∧
      st.ebird_toolset.connection_params.server_params.args =
        ["/app/ebird-mcp-server/index.js", "--api-key", "KEY"] ∧
      st.ebird_toolset.connection_params.server_params.cwd =
        "/app/ebird-mcp-server" := by
  refine ⟨_, rfl, ?_⟩
  have h := toolset_launch_config
    { projectRoot := "/app", ebirdFolderExists := true,
      ebirdApiKeyVar := some "KEY" } _ rfl
  refine ⟨h.1, ?_, ?_⟩
  · rw [h.2.1]; decide
  · rw [h.2.2]; decide

/-- C6: the API key equals the `EBIRD_API_KEY` environment variable when it
is set and the literal placeholder `"YOUR_EBIRD_API_KEY"` when unset, and an
unset variable never makes the module import fail (the folder existing). -/
theorem api_key_fallback (root key : String) (folderExists : Bool) :
    EBIRD_API_KEY
        { projectRoot := root, ebirdFolderExists := folderExists,
          ebirdApiKeyVar := some key } = key ∧
    EBIRD_API_KEY
        { projectRoot := root, ebirdFolderExists := folderExists,
          ebirdApiKeyVar := none } = "YOUR_EBIRD_API_KEY" ∧
    (loadModule
        { projectRoot := root, ebirdFolderExists := true,
          ebirdApiKeyVar := none }).isOk = true := by
  exact ⟨rfl, rfl, rfl⟩

/-- C7: `setup.py` runs the pip install and then the npm install, in that
order; if the pip step fails the npm step never runs and the process exits
non-zero; if the npm step fails the process exits non-zero; and when both
succeed the two commands ran in order and the process exits zero. -/
theorem setup_steps_and_exit (pipExit npmExit : Nat) :
    (pipExit ≠ 0 →
      (setupMain pipExit npmExit).exitCode ≠ 0 ∧
      (setupMain pipExit npmExit).finalState.trace = [pipCommand]) ∧
    (pipExit = 0 → npmExit ≠ 0 →
      (setupMain pipExit npmExit).exitCode ≠ 0 ∧
      (setupMain pipExit npmExit).finalState.trace =
        [pipCommand, npmCommand]) ∧
    (pipExit = 0 → npmExit = 0 →
      (setupMain pipExit npmExit).exitCode = 0 ∧
      (setupMain pipExit npmExit).finalState.trace =
        [pipCommand, npmCommand]) := by
  refine ⟨fun hp => by
      simp [setupMain, install_requirements, setup_ebird_mcp, check_call, hp],
    fun hp hn => ?_, fun hp hn => ?_⟩ <;>
    simp [setupMain, install_requirements, setup_ebird_mcp, check_call,
      hp, hn]

/-- Witness for C7: with the pip subprocess failing (exit 1), only the pip
command runs and the script exits non-zero. -/
theorem setup_steps_and_exit_witness :
    (setupMain 1 0).exitCode ≠ 0 ∧
    (setupMain 1 0).finalState.trace = [pipCommand] :=
  (setup_steps_and_exit 1 0).1 (by decide)

/-- C8: run as a script, the program executes exactly the three literal
demonstration queries against the service, in order, threading the service
state between them, and prints for each the response preview — the full
response when it has at most 600 characters, else the first 600 characters
followed by `"..."`. -/
theorem main_demo_queries (oracle : Oracle) :
    (mainTrace oracle).1 =
      [("Birding hotspots near Boston",
        preview (run_query oracle freshService
          "Birding hotspots near Boston").result),
       ("Bald eagles Seattle",
        preview (run_query oracle
          (run_query oracle freshService
            "Birding hotspots near Boston").service
          "Bald eagles Seattle").result),
       ("Paris birds",
        preview (run_query oracle
          (run_query oracle
            (run_query oracle freshService
              "Birding hotspots near Boston").service
            "Bald eagles Seattle").service
          "Paris birds").result)] ∧
    ∀ s : String,
      preview s = if s.length > 600 then s.take 600 ++ "..." else s := by
  exact ⟨rfl, fun s => rfl⟩

/-- C9: when no streamed event carries final-output text and nothing raises,
`run_query` returns the empty string, which does not start with `"Error:"`
(and so is indistinguishable from a legitimately empty answer). -/
theorem run_query_no_final_text_empty (oracle : Oracle)
    (svc : SessionService) (query : String)
    (h : oracle.sessionFailure svc.nextId = none)
    (hf : (oracle.stream svc.nextId query).failure = none)
    (hnone : ∀ e ∈ (oracle.stream svc.nextId query).events,
      e.finalText = none) :
    (run_query oracle svc query).result = "" ∧
    ((run_query oracle svc query).result.startsWith "Error:") = false := by
  have hempty :
      (oracle.stream svc.nextId query).events.filterMap Event.finalText
        = [] := by
    rw [List.filterMap_eq_nil_iff]
    exact hnone
  have hres : (run_query oracle svc query).result = "" := by
    simp [run_query, h, hf, SessionService.create_session,
      accumulateResponse_eq_join, hempty, String.join, pyStrip]
  exact ⟨hres, by rw [hres]; decide⟩

/-- A stream on which no event carries truthy final-output text: a bare
event, an event with no output, and an event whose final text is the empty
string (falsy in Python). -/
def silentStream : RunnerStream :=
  { events :=
      [ Event.mk none,
        Event.mk (some (EventResponse.mk none)),
        textEvent "" ]
    failure := none }

/-- An oracle on which nothing raises and every run yields `silentStream`. -/
def silentOracle : Oracle :=
  { sessionFailure := fun _ => none
    stream := fun _ _ => silentStream }

/-- Witness for C9: running on `silentOracle` returns `""`, not an
`"Error:"`-prefixed string. -/
theorem run_query_no_final_text_empty_witness :
    (run_query silentOracle freshService "q").result = "" ∧
    ((run_query silentOracle freshService "q").result.startsWith "Error:")
      = false :=
  run_query_no_final_text_empty silentOracle freshService "q" rfl rfl
    (by decide)

/-- C10: when the npm install fails, `setup_ebird_mcp` propagates the
exception with the working directory still changed to the server
subdirectory (not restored); the directory is restored to the parent only on
success. -/
theorem setup_cwd_unrestored_on_failure (npmExit : Nat) (st : ProcState) :
    (npmExit ≠ 0 →
      (setup_ebird_mcp npmExit st).1 = some npmExit ∧
      ((setup_ebird_mcp npmExit st).2).cwd =
        st.cwd ++ ["ebird-mcp-server"]) ∧
    (npmExit = 0 →
      (setup_ebird_mcp npmExit st).1 = none ∧
      ((setup_ebird_mcp npmExit st).2).cwd = st.cwd) := by
  constructor
  · intro hn
    simp [setup_ebird_mcp, check_call, chdir, hn]
  · intro hn
    simp [setup_ebird_mcp, check_call, chdir, hn, List.dropLast_concat]

/-- Witness for C10: with npm exiting 1 from the starting directory, the
exception carries exit status 1 and the process is left inside
`ebird-mcp-server`. -/
theorem setup_cwd_unrestored_on_failure_witness :
    (setup_ebird_mcp 1 { cwd := [], trace := [] }).1 = some 1 ∧
    ((setup_ebird_mcp 1 { cwd := [], trace := [] }).2).cwd =
      ["ebird-mcp-server"] :=
  (setup_cwd_unrestored_on_failure 1 { cwd := [], trace := [] }).1
    (by decide)

end EBirdNavigator
